import Mathlib

/-!
Verification of the boostedhh submit / batch / reconcile control loop.

Shallow embedding of:
- `src/boostedhh/submit_utils.py` (`submit`, `check_branch`, `write_template`),
- `src/boostedhh/run_utils.py` (`get_fileset` slicing, the retry loop and the
  output-batching step of `run`),
- `condor/check_jobs.py` (the per-sample reconciliation loop).

Machine integers are `Nat`; Python list slicing `l[a:b]` (with `0 ≤ a, b`) is
`(l.drop a).take (b - a)`; fallible code returns `Except`.
-/

/-! ## ShardPlanner / Submitter (submit_utils.submit) -/

/-- Ceiling division on naturals: for `files_per_job > 0` this is exactly
the `njobs = ceil(tot_files / args.files_per_job)` of the submit loop. -/
def njobs (tot_files files_per_job : Nat) : Nat :=
  (tot_files + files_per_job - 1) / files_per_job

/-- The job indices actually iterated by `for j in range(njobs)` with the
test-mode early exit `if args.test and j == 2: break`. -/
def jobIdxs (test : Bool) (n : Nat) : List Nat :=
  (List.range n).takeWhile (fun j => !(test && j == 2))

/-- The `(starti, endi)` pair substituted into the launcher of shard `j`:
`starti = j * files_per_job`, `endi = (j + 1) * files_per_job`. -/
def shardRange (files_per_job j : Nat) : Nat × Nat :=
  (j * files_per_job, (j + 1) * files_per_job)

/-- The ordered list of `(starti, endi)` ranges produced by the submit loop
for one subsample with `tot_files` input files. -/
def submitShards (test : Bool) (tot_files files_per_job : Nat) : List (Nat × Nat) :=
  (jobIdxs test (njobs tot_files files_per_job)).map (shardRange files_per_job)

/-- Python slice `l[starti:endi]` for nonnegative bounds, as used by
`get_fileset` in run_utils.py (`fnames[starti:endi]` when `endi ≥ 0`). -/
def pySlice (l : List α) (starti endi : Nat) : List α :=
  (l.drop starti).take (endi - starti)

/-- The file lists the runners of the individual shards actually see, given
the full ordered file list and the submitted `(starti, endi)` ranges. -/
def realizedFiles (l : List α) (shards : List (Nat × Nat)) : List (List α) :=
  shards.map (fun se => pySlice l se.1 se.2)

/-! ## OutputBatcher (run_utils.run, parquet batching) -/

/-- Ceiling division on naturals, as computed by
`int(np.ceil(len(parquet_files) / batch_size))` in the run function. -/
def num_batches (n batch_size : Nat) : Nat :=
  (n + batch_size - 1) / batch_size

/-- The consolidated batches: `parquet_files[i*batch_size : (i+1)*batch_size]`
for `i in range(num_batches)`. -/
def batchSlices (files : List α) (batch_size : Nat) : List (List α) :=
  (List.range (num_batches files.length batch_size)).map
    (fun i => pySlice files (i * batch_size) ((i + 1) * batch_size))

/-- Result of the batching step at the end of `run_utils.run`: the integer
written to `num_batches_{filetag}.txt` and the list of consolidated batch
files. The manifest write is unconditional; the loop range is the same
`num_batches`. -/
structure BatchOutput (α : Type) where
  manifest : Nat
  batches : List (List α)
deriving Repr, DecidableEq

/-- The batching step of `run_utils.run`. -/
def outputBatcher (files : List α) (batch_size : Nat) : BatchOutput α :=
  { manifest := num_batches files.length batch_size
    batches := batchSlices files batch_size }

/-! ## Reconciler (condor/check_jobs.py) -/

/-- The two places where the per-sample loop of check_jobs.py can raise an
uncaught KeyError: the `jdl_dict[sample]` lookup at the head of the per-shard
loop, and the `expected_parquets[i]` lookup inside it. -/
inductive CheckErr where
  | keyErrorJdl
  | keyErrorExpected
deriving Repr, DecidableEq

/-- Python `i in outs_parquet`, where `outs_parquet` is the dict built from the
parquet directory listing, given here as the `(fnum, bnum)` pairs parsed from
the file names. -/
def hasOuts (outs : List (Nat × Nat)) (i : Nat) : Bool :=
  outs.any (fun p => p.1 == i)

/-- Python `outs_parquet[i]`: the batch numbers listed for shard `i`. -/
def outsFor (outs : List (Nat × Nat)) (i : Nat) : List Nat :=
  (outs.filter (fun p => p.1 == i)).map (fun p => p.2)

/-- One iteration of the per-shard check loop of check_jobs.py (lines 158-189)
for shard `i` of one sample. `expected` holds the `(fnum, count)` pairs parsed
from the jobchecks manifests, `outs` the `(fnum, bnum)` pairs parsed from the
parquet listing, `pickles` the shard indices parsed from the pickles listing
and `running` the shard indices whose identifier is in running_jobs.txt.
The value of `check_parquet` computed for shard `i` (lines 160-168), or the
KeyError raised by `expected_parquets[i]` when shard `i` has parquet outputs
but no manifest. -/
def check_parquet_flag (trigger : Bool) (expected outs : List (Nat × Nat))
    (i : Nat) : Except CheckErr Bool :=
  if trigger then Except.ok true
  else if !(hasOuts outs i) then Except.ok false
  else
    match expected.lookup i with
    | none => Except.error CheckErr.keyErrorExpected
    | some e =>
      Except.ok ((((List.range e).filter
        (fun j => !((outsFor outs i).contains j))).length) == 0)

/-- One iteration of the per-shard check loop of check_jobs.py (lines 158-189)
for shard `i` of one sample: `ok true` when the shard is appended to
missing_files, `ok false` when it is not (complete, or running), `error` when
the iteration raises a KeyError. -/
def checkShard (trigger : Bool) (expected outs : List (Nat × Nat))
    (pickles running : List Nat) (i : Nat) : Except CheckErr Bool :=
  match check_parquet_flag trigger expected outs i with
  | Except.error err => Except.error err
  | Except.ok check_parquet =>
    if !(pickles.contains i) || !check_parquet then
      if running.contains i then Except.ok false else Except.ok true
    else Except.ok false

/-- The per-shard loop `for i in range(jdl_dict[sample])`, collecting in order
the shard indices appended to missing_files, or the first uncaught KeyError. -/
def shardLoop (trigger : Bool) (expected outs : List (Nat × Nat))
    (pickles running : List Nat) : List Nat → Except CheckErr (List Nat)
  | [] => Except.ok []
  | j :: js =>
    match checkShard trigger expected outs pickles running j with
    | Except.error e => Except.error e
    | Except.ok add =>
      match shardLoop trigger expected outs pickles running js with
      | Except.error e => Except.error e
      | Except.ok rest => Except.ok (if add then j :: rest else rest)

/-- The body of `for sample in samples` in check_jobs.py, producing the shard
indices of this sample appended to missing_files (or the uncaught KeyError).
`trigger` is `args.processor == "trigger"`; `jdlCount` is `jdl_dict[sample]`
when the sample has descriptors (highest descriptor index plus one) and `none`
when it has none. Branches, in source order: the missing-parquet-directory
branch (lines 103-123, guarded by `sample not in jdl_dict`), the
missing-pickles-directory branch (lines 147-149), then the per-shard loop
(lines 158-189) whose range expression `jdl_dict[sample]` raises KeyError for
a descriptor-less sample. -/
def checkSample (trigger parquetDirExists picklesDirExists : Bool)
    (expected outs : List (Nat × Nat)) (pickles : List Nat)
    (jdlCount : Option Nat) (running : List Nat) : Except CheckErr (List Nat) :=
  if !trigger && !parquetDirExists then
    match jdlCount with
    | none => Except.ok []
    | some n => Except.ok ((List.range n).filter (fun i => !(running.contains i)))
  else if !picklesDirExists then Except.ok []
  else
    match jdlCount with
    | none => Except.error CheckErr.keyErrorJdl
    | some n => shardLoop trigger expected outs pickles running (List.range n)

/-- Descriptor path appended to missing_files for shard `i`. -/
def jdlFile (processor tag year sample : String) (i : Nat) : String :=
  "condor/" ++ processor ++ "/" ++ tag ++ "/" ++ year ++ "_" ++ sample ++ "_"
    ++ toString i ++ ".jdl"

/-- Log path appended to err_files for shard `i`. -/
def errFile (processor tag year sample : String) (i : Nat) : String :=
  "condor/" ++ processor ++ "/" ++ tag ++ "/logs/" ++ year ++ "_" ++ sample ++ "_"
    ++ toString i ++ ".err"

/-- The `(missing_files, err_files)` entries reported for one sample. -/
def sampleReport (processor tag year sample : String)
    (trigger parquetDirExists picklesDirExists : Bool)
    (expected outs : List (Nat × Nat)) (pickles : List Nat)
    (jdlCount : Option Nat) (running : List Nat) :
    Except CheckErr (List (String × String)) :=
  (checkSample trigger parquetDirExists picklesDirExists expected outs pickles
      jdlCount running).map
    (fun idxs => idxs.map (fun i =>
      (jdlFile processor tag year sample i, errFile processor tag year sample i)))

/-- Completeness of a shard as claim C3 words it, following the spec text: the
PrimaryResult pickle exists AND (no OutputManifest is expected — the
trigger-processor case — or the number of ConsolidatedBatch objects present
equals the OutputManifest count). Stated from the spec, for comparison with
`checkShard`, which is the code. -/
def specComplete (trigger : Bool) (expected outs : List (Nat × Nat))
    (pickles : List Nat) (i : Nat) : Bool :=
  pickles.contains i &&
    (trigger || (outsFor outs i).length == (expected.lookup i).getD 0)

/-! ## Revision gate (submit_utils.check_branch) -/

/-- Outcome of check_branch: `exited` models `sys.exit(1)` (and the assert on
branch existence, which also aborts with a nonzero status); `proceeded warned`
records whether a warning was printed before proceeding. -/
inductive BranchResult where
  | exited
  | proceeded (warned : Bool)
deriving Repr, DecidableEq

/-- The check_branch function of submit_utils.py: assert the remote branch
exists, exit on uncommitted local changes unless overridden, exit on a
local/remote commit hash mismatch unless overridden. -/
def check_branch (branchExists : Bool) (uncommited_files : Nat)
    (remote_hash local_hash : String) (allow_diff_local_repo : Bool) : BranchResult :=
  if !branchExists then BranchResult.exited
  else if uncommited_files != 0 && !allow_diff_local_repo then BranchResult.exited
  else if remote_hash != local_hash && !allow_diff_local_repo then BranchResult.exited
  else BranchResult.proceeded (uncommited_files != 0 || remote_hash != local_hash)

/-- The submit path: init_args calls check_branch before anything else, so no
descriptor is created or submitted unless it proceeds. -/
def submitPath (branchExists : Bool) (uncommited_files : Nat)
    (remote_hash local_hash : String) (allow_diff_local_repo : Bool)
    (test : Bool) (tot_files files_per_job : Nat) : Option (List (Nat × Nat)) :=
  match check_branch branchExists uncommited_files remote_hash local_hash
      allow_diff_local_repo with
  | BranchResult.exited => none
  | BranchResult.proceeded _ => some (submitShards test tot_files files_per_job)

/-! ## Retry loop (run_utils.run, file opening) -/

/-- Error classes distinguished by the retry loop: `except FileNotFoundError`
is caught, every other exception class propagates uncaught. -/
inductive RunErr where
  | fileNotFound
  | otherErr
deriving Repr, DecidableEq

/-- Observable trace of the retry loop: how many times the processor runner
was invoked, the sleeps performed (in seconds), and the final outcome. -/
structure RetryTrace (α : Type) where
  attemptsMade : Nat
  sleeps : List Nat
  outcome : Except RunErr α

/-- The loop `for i in range(3)` around the runner call in run_utils.run,
unrolled: break on success, catch FileNotFoundError and `time.sleep(60)` when
`i < 2`, re-raise on the third FileNotFoundError, propagate any other
exception immediately. `attempt k` is the outcome of the k-th runner call. -/
def runWithRetry (attempt : Nat → Except RunErr α) : RetryTrace α :=
  match attempt 0 with
  | Except.ok a => ⟨1, [], Except.ok a⟩
  | Except.error RunErr.otherErr => ⟨1, [], Except.error RunErr.otherErr⟩
  | Except.error RunErr.fileNotFound =>
    match attempt 1 with
    | Except.ok a => ⟨2, [60], Except.ok a⟩
    | Except.error RunErr.otherErr => ⟨2, [60], Except.error RunErr.otherErr⟩
    | Except.error RunErr.fileNotFound =>
      match attempt 2 with
      | Except.ok a => ⟨3, [60, 60], Except.ok a⟩
      | Except.error RunErr.otherErr => ⟨3, [60, 60], Except.error RunErr.otherErr⟩
      | Except.error RunErr.fileNotFound => ⟨3, [60, 60], Except.error RunErr.fileNotFound⟩

/-! ## Template rendering (submit_utils.write_template) -/

/-- A parsed string.Template: literal text interleaved with `$key` holes. -/
inductive TemplTok where
  | lit (s : String)
  | hole (k : String)
deriving Repr, DecidableEq

/-- Substitution of one token: a hole whose key is absent from templ_args
raises KeyError naming the key, exactly as Template.substitute does. -/
def substTok (templ_args : List (String × String)) : TemplTok → Except String String
  | TemplTok.lit s => Except.ok s
  | TemplTok.hole k =>
    match templ_args.lookup k with
    | some v => Except.ok v
    | none => Except.error k

/-- Template.substitute over the whole token list, left to right, stopping at
the first missing key. -/
def substituteAll : List TemplTok → List (String × String) → Except String String
  | [], _ => Except.ok ""
  | t :: ts, m =>
    match substTok m t with
    | Except.error k => Except.error k
    | Except.ok s =>
      match substituteAll ts m with
      | Except.error k => Except.error k
      | Except.ok rest => Except.ok (s ++ rest)

/-- What write_template leaves on disk and raises. The output file is opened
with mode "w" (truncating it to empty) before `templ.substitute(templ_args)`
is evaluated as the argument of `f.write`, so on a KeyError the file exists
and is empty; on success it holds the fully substituted text. -/
structure WriteResult where
  fileContent : Option String
  raised : Option String
deriving Repr, DecidableEq

/-- The write_template function of submit_utils.py. -/
def write_template (templ : List TemplTok) (templ_args : List (String × String)) :
    WriteResult :=
  match substituteAll templ templ_args with
  | Except.ok s => ⟨some s, none⟩
  | Except.error k => ⟨some "", some k⟩

/-! ## Module-level imports of check_jobs.py -/

/-- The top-level names bound by src/boostedhh/submit_utils.py. -/
def submit_utils_defs : List String :=
  ["t2_redirectors", "REPO_DICT", "print_red", "write_template", "parse_submit_args",
   "check_branch", "init_args", "submit"]

/-- The names condor/check_jobs.py imports from boostedhh.submit_utils
(line 17 of check_jobs.py). -/
def check_jobs_submit_utils_imports : List String :=
  ["print_red", "replace_batch_size"]

/-- Whether the import statement at the top of check_jobs.py resolves. Python
raises ImportError, aborting the script before argument parsing, when any
imported name is absent from the module. -/
def check_jobs_imports_ok : Bool :=
  check_jobs_submit_utils_imports.all (fun n => submit_utils_defs.contains n)

/-! ## Core chunking lemmas -/

theorem cdiv_zero (B : Nat) (hB : 0 < B) : num_batches 0 B = 0 := by
  unfold num_batches
  exact Nat.div_eq_of_lt (by omega)

theorem cdiv_pos_eq (n B : Nat) (hB : 0 < B) (hn : 0 < n) :
    num_batches n B = (n - 1) / B + 1 := by
  unfold num_batches
  have h1 : n + B - 1 = (n - 1) + B := by omega
  rw [h1, Nat.add_div_right _ hB]

theorem cdiv_rec (n B : Nat) (hB : 0 < B) (hn : 0 < n) :
    num_batches n B = num_batches (n - B) B + 1 := by
  rcases le_or_lt n B with h | h
  · have h0 : n - B = 0 := by omega
    have h2 : n - 1 < B := by omega
    have h3 : (n - 1) / B = 0 := Nat.div_eq_of_lt h2
    rw [h0, cdiv_zero B hB, cdiv_pos_eq n B hB hn, h3]
  · rw [cdiv_pos_eq n B hB hn, cdiv_pos_eq (n - B) B hB (by omega)]
    have h1 : n - 1 = (n - B - 1) + B := by omega
    rw [h1, Nat.add_div_right _ hB]

theorem join_chunks_aux (B : Nat) (hB : 0 < B) :
    ∀ fuel : Nat, ∀ l : List α, l.length ≤ fuel →
      ((List.range (num_batches l.length B)).map
        (fun i => (l.drop (i * B)).take B)).flatten = l := by
  intro fuel
  induction fuel with
  | zero =>
    intro l hl
    have h0 : l = [] := List.eq_nil_of_length_eq_zero (by omega)
    subst h0
    simp [cdiv_zero B hB]
  | succ m ih =>
    intro l hl
    cases l with
    | nil => simp [cdiv_zero B hB]
    | cons a t =>
      have hpos : 0 < (a :: t).length := by simp
      rw [cdiv_rec _ B hB hpos, List.range_succ_eq_map, List.map_cons, List.map_map,
        List.flatten_cons]
      have hdrop : ∀ i : Nat,
          (((a :: t).drop ((i + 1) * B)).take B) =
            ((((a :: t).drop B).drop (i * B)).take B) := by
        intro i
        rw [List.drop_drop]
        have h5 : B + i * B = (i + 1) * B := by ring
        rw [h5]
      have hlen : ((a :: t).drop B).length = (a :: t).length - B := by
        simp
      have htail :
          ((List.range (num_batches ((a :: t).length - B) B)).map
            ((fun i => (((a :: t)).drop (i * B)).take B) ∘ Nat.succ)).flatten
            = (a :: t).drop B := by
        have hrw :
            ((fun i => (((a :: t)).drop (i * B)).take B) ∘ Nat.succ)
              = fun i => ((((a :: t).drop B)).drop (i * B)).take B := by
          funext i
          simp only [Function.comp]
          exact hdrop i
        rw [hrw, ← hlen]
        apply ih
        have hlt : (a :: t).length - B ≤ m := by
          simp only [List.length_cons] at hl ⊢
          omega
        omega
      rw [htail]
      have hhead : (((a :: t)).drop (0 * B)).take B = (a :: t).take B := by
        simp
      rw [hhead, List.take_append_drop]

theorem join_chunks (B : Nat) (hB : 0 < B) (l : List α) :
    ((List.range (num_batches l.length B)).map
      (fun i => (l.drop (i * B)).take B)).flatten = l :=
  join_chunks_aux B hB l.length l (Nat.le_refl _)

theorem takeWhile_notest (l : List Nat) :
    l.takeWhile (fun j => !(false && j == 2)) = l := by
  induction l with
  | nil => rfl
  | cons a t ih => simp only [List.takeWhile_cons]; simp [ih]

theorem jobIdxs_false (n : Nat) : jobIdxs false n = List.range n :=
  takeWhile_notest _

theorem takeWhile_test_from_two (m : Nat) :
    (List.range' 2 m).takeWhile (fun j => !(true && j == 2)) = [] := by
  cases m with
  | zero => rfl
  | succ k => rw [List.range'_succ]; rfl

theorem jobIdxs_true (n : Nat) : jobIdxs true n = List.range (min n 2) := by
  match n with
  | 0 => rfl
  | 1 => rfl
  | (m + 2) =>
    have hmin : min (m + 2) 2 = 2 := by omega
    rw [hmin]
    unfold jobIdxs
    rw [List.range_eq_range', List.range_eq_range', List.range'_succ, List.range'_succ]
    rw [List.takeWhile_cons]
    simp only [show (!(true && 0 == 2)) = true from rfl, if_true]
    rw [List.takeWhile_cons]
    simp only [show (!(true && 1 == 2)) = true from rfl, if_true]
    rw [takeWhile_test_from_two]
    rfl

theorem pySlice_chunk (l : List α) (B i : Nat) :
    pySlice l (i * B) ((i + 1) * B) = (l.drop (i * B)).take B := by
  unfold pySlice
  rw [Nat.succ_mul, Nat.add_sub_cancel_left]

theorem njobs_eq_num_batches (tot L : Nat) : njobs tot L = num_batches tot L := rfl

/-! ## Claim theorems -/

/-- C1: for every fileset size and limit L > 0, the submit path creates
ceil(F/L) shards (capped at 2 in test mode), shard j covering
[j*L, (j+1)*L); combined with the slicing of the file list by
[starti, endi) in get_fileset, the concatenation of the realized file
lists of the shards, in order, is exactly the original file list, so each
file lands in exactly one shard. -/
theorem C1_sharding_exhaustive (L tot : Nat) (l : List α) (hL : 0 < L) :
    submitShards false tot L
        = (List.range (njobs tot L)).map (fun j => (j * L, (j + 1) * L))
    ∧ (submitShards true tot L).length = min (njobs tot L) 2
    ∧ (realizedFiles l (submitShards false l.length L)).flatten = l := by
  refine ⟨?_, ?_, ?_⟩
  · unfold submitShards shardRange
    rw [jobIdxs_false]
  · unfold submitShards
    rw [jobIdxs_true, List.length_map, List.length_range]
  · unfold realizedFiles submitShards shardRange
    rw [jobIdxs_false, List.map_map]
    have hrw : ((fun se : Nat × Nat => pySlice l se.1 se.2)
          ∘ (fun j => (j * L, (j + 1) * L)))
        = fun j => (l.drop (j * L)).take L := by
      funext j
      exact pySlice_chunk l L j
    rw [hrw, njobs_eq_num_batches]
    exact join_chunks L hL l

theorem C1_sharding_exhaustive_witness :
    0 < 2
    ∧ (submitShards false 5 2
        = (List.range (njobs 5 2)).map (fun j => (j * 2, (j + 1) * 2))
      ∧ (submitShards true 5 2).length = min (njobs 5 2) 2
      ∧ (realizedFiles [10, 11, 12, 13, 14]
          (submitShards false (List.length [10, 11, 12, 13, 14]) 2)).flatten
          = [10, 11, 12, 13, 14]) :=
  ⟨by decide, C1_sharding_exhaustive 2 5 [10, 11, 12, 13, 14] (by decide)⟩

/-- C2: for n fragments and batch size B > 0, the batching step at the end of
run produces exactly ceil(n/B) batches indexed 0..ceil(n/B)-1, each with at
most B fragments, every fragment in exactly one batch (their concatenation in
order is the fragment list), and writes a manifest containing ceil(n/B); for
n = 0 the manifest contains 0 and there are no batches. -/
theorem C2_batching (files : List α) (B : Nat) (hB : 0 < B) :
    (outputBatcher files B).manifest = num_batches files.length B
    ∧ (outputBatcher files B).batches.length = num_batches files.length B
    ∧ (∀ b ∈ (outputBatcher files B).batches, b.length ≤ B)
    ∧ ((outputBatcher files B).batches).flatten = files
    ∧ (files = [] →
        (outputBatcher files B).manifest = 0 ∧ (outputBatcher files B).batches = []) := by
  have hslices : batchSlices files B
      = (List.range (num_batches files.length B)).map
          (fun i => (files.drop (i * B)).take B) := by
    unfold batchSlices
    apply List.map_congr_left
    intro i _
    exact pySlice_chunk files B i
  refine ⟨rfl, ?_, ?_, ?_, ?_⟩
  · show (batchSlices files B).length = _
    rw [hslices, List.length_map, List.length_range]
  · intro b hb
    show b.length ≤ B
    have hb2 : b ∈ batchSlices files B := hb
    rw [hslices] at hb2
    obtain ⟨i, _, hbi⟩ := List.mem_map.mp hb2
    rw [← hbi, List.length_take]
    exact min_le_left _ _
  · show (batchSlices files B).flatten = files
    rw [hslices]
    exact join_chunks B hB files
  · intro hnil
    subst hnil
    constructor
    · show num_batches 0 B = 0
      exact cdiv_zero B hB
    · show batchSlices [] B = []
      unfold batchSlices
      simp [cdiv_zero B hB]

theorem C2_batching_witness :
    0 < 2
    ∧ ((outputBatcher [7, 8, 9] 2).manifest = num_batches (List.length [7, 8, 9]) 2
      ∧ (outputBatcher [7, 8, 9] 2).batches.length = num_batches (List.length [7, 8, 9]) 2
      ∧ (∀ b ∈ (outputBatcher [7, 8, 9] 2).batches, b.length ≤ 2)
      ∧ ((outputBatcher [7, 8, 9] 2).batches).flatten = [7, 8, 9]
      ∧ (([7, 8, 9] : List Nat) = [] →
          (outputBatcher [7, 8, 9] 2).manifest = 0
          ∧ (outputBatcher [7, 8, 9] 2).batches = [])) :=
  ⟨by decide, C2_batching [7, 8, 9] 2 (by decide)⟩

theorem length_filter_not_contains (l pres : List Nat) :
    ((l.filter (fun j => !(pres.contains j))).length == 0)
      = l.all (fun j => pres.contains j) := by
  induction l with
  | nil => rfl
  | cons a t ih =>
    simp only [List.filter_cons, List.all_cons]
    rw [← ih]
    cases h : pres.contains a
    · rfl
    · rfl

/-- C3 counterexample: with the manifest for shard 0 saying 1 batch but the
parquet listing holding batch indices 0 and 1 (a stale extra batch file), and
the pickle present, the per-shard check classifies the shard complete (does
not append it), while the predicate of the claim — number of batches present
equals the manifest count — is false (2 ≠ 1), so the stated equivalence fails
at this concrete input. -/
theorem C3_counterexample :
    ¬ ((checkShard false [(0, 1)] [(0, 0), (0, 1)] [0] [] 0 = Except.ok false) ↔
      specComplete false [(0, 1)] [(0, 0), (0, 1)] [0] 0 = true) := by
  intro h
  have h1 : checkShard false [(0, 1)] [(0, 0), (0, 1)] [0] [] 0 = Except.ok false := rfl
  have h2 := h.mp h1
  exact absurd h2 (by decide)

/-- C3 amended: for a shard that is not in the running set and whose manifest
lookup succeeds (count e), the per-shard check does not append the shard to
the resubmission list iff the pickle for it exists AND (the trigger processor
is being checked, or the shard has at least one parquet output and every batch
index j < e appears among its parquet outputs). Presence of every expected
index, not equality of counts, is what the code tests. -/
theorem C3_complete_characterization (trigger : Bool) (expected outs : List (Nat × Nat))
    (pickles running : List Nat) (i e : Nat)
    (hrun : running.contains i = false)
    (hexp : expected.lookup i = some e) :
    checkShard trigger expected outs pickles running i =
      Except.ok (!(pickles.contains i &&
        (trigger || (hasOuts outs i
          && (List.range e).all (fun j => (outsFor outs i).contains j))))) := by
  have hnmem : i ∉ running := by simpa using hrun
  unfold checkShard check_parquet_flag
  cases htr : trigger
  · cases ho : hasOuts outs i
    · simp [ho, hrun, hnmem]
    · simp only [ho, Bool.not_true, if_false, if_true, hexp, Bool.false_eq_true]
      rw [length_filter_not_contains]
      cases hall : (List.range e).all (fun j => (outsFor outs i).contains j)
      · simp [hrun, hnmem, hall]
      · cases hp : pickles.contains i
        · simp [hrun, hnmem, hp, hall]
        · simp [hrun, hnmem, hp, hall]
  · cases hp : pickles.contains i
    · simp [hrun, hnmem, hp]
    · simp [hrun, hnmem, hp]

theorem C3_complete_characterization_witness :
    (([] : List Nat).contains 0 = false
      ∧ ([(0, 1)] : List (Nat × Nat)).lookup 0 = some 1)
    ∧ checkShard false [(0, 1)] [(0, 0)] [0] [] 0 =
        Except.ok (!(([0] : List Nat).contains 0 &&
          (false || (hasOuts [(0, 0)] 0
            && (List.range 1).all (fun j => (outsFor [(0, 0)] 0).contains j))))) :=
  ⟨⟨by decide, by decide⟩,
    C3_complete_characterization false [(0, 1)] [(0, 0)] [0] [] 0 1 (by decide) (by decide)⟩

/-- C4: for a non-trigger sample whose parquet output directory is entirely
absent and which has descriptors up to index n-1 (jdl_dict[sample] = n), with
no running jobs, every shard index 0..n-1 is reported missing, each with its
descriptor (.jdl) and log (.err) path, without any batch-level diffing. -/
theorem C4_total_absence (processor tag year sample : String)
    (picklesDirExists : Bool) (expected outs : List (Nat × Nat))
    (pickles : List Nat) (n : Nat) :
    sampleReport processor tag year sample false false picklesDirExists
        expected outs pickles (some n) []
      = Except.ok ((List.range n).map (fun i =>
          (jdlFile processor tag year sample i, errFile processor tag year sample i))) := by
  unfold sampleReport checkSample
  simp
  rfl

theorem checkShard_running (trigger : Bool) (expected outs : List (Nat × Nat))
    (pickles running : List Nat) (i : Nat) (hrun : running.contains i = true) :
    checkShard trigger expected outs pickles running i ≠ Except.ok true := by
  have hm : i ∈ running := by simpa using hrun
  unfold checkShard
  cases hcp : check_parquet_flag trigger expected outs i with
  | error e => simp
  | ok cp => simp [hm]

/-- C5: whenever the per-sample check completes with a missing list, a shard
index whose identifier is in the running-jobs snapshot is not in that list;
this covers both the missing-parquet-directory branch and the per-shard check
branch, since checkSample is exactly the union of those branches. -/
theorem C5_running_suppressed (trigger parquetDirExists picklesDirExists : Bool)
    (expected outs : List (Nat × Nat)) (pickles : List Nat)
    (jdlCount : Option Nat) (running : List Nat) (i : Nat) (L : List Nat)
    (hrun : running.contains i = true)
    (hok : checkSample trigger parquetDirExists picklesDirExists expected outs pickles
        jdlCount running = Except.ok L) :
    i ∉ L := by
  have hshard : ∀ js L2,
      shardLoop trigger expected outs pickles running js = Except.ok L2 → i ∉ L2 := by
    intro js
    induction js with
    | nil =>
      intro L2 h
      unfold shardLoop at h
      cases h
      simp
    | cons j t ih =>
      intro L2 h
      unfold shardLoop at h
      cases hc : checkShard trigger expected outs pickles running j with
      | error e => rw [hc] at h; cases h
      | ok add =>
        rw [hc] at h
        cases hrest : shardLoop trigger expected outs pickles running t with
        | error e => rw [hrest] at h; cases h
        | ok rest =>
          rw [hrest] at h
          cases h
          have hirest : i ∉ rest := ih rest hrest
          cases add
          · simpa using hirest
          · intro hmem
            rcases List.mem_cons.mp hmem with heq | hmem2
            · subst heq
              exact checkShard_running trigger expected outs pickles running i hrun hc
            · exact hirest hmem2
  unfold checkSample at hok
  by_cases h1 : (!trigger && !parquetDirExists) = true
  · rw [if_pos h1] at hok
    cases jdlCount with
    | none =>
      cases hok
      simp
    | some n =>
      cases hok
      intro hmem
      have := (List.mem_filter.mp hmem).2
      rw [hrun] at this
      cases this
  · rw [if_neg h1] at hok
    by_cases h2 : (!picklesDirExists) = true
    · rw [if_pos h2] at hok
      cases hok
      simp
    · rw [if_neg h2] at hok
      cases jdlCount with
      | none => cases hok
      | some n => exact hshard (List.range n) L hok

theorem C5_running_suppressed_witness :
    (([0] : List Nat).contains 0 = true
      ∧ checkSample false true true [(0, 1)] [] [] (some 1) [0] = Except.ok [])
    ∧ (0 : Nat) ∉ ([] : List Nat) :=
  ⟨⟨by decide, by rfl⟩,
    C5_running_suppressed false true true [(0, 1)] [] [] (some 1) [0] 0 []
      (by decide) (by rfl)⟩

/-- C10: a sample that is reached with the trigger processor, or whose parquet
directory exists, and whose pickles directory exists, but for which no
descriptor was found (sample not in jdl_dict), makes the check run raise an
uncaught KeyError at the range expression of the per-shard loop; the guard for
descriptor-less samples exists only in the missing-parquet branch. -/
theorem C10_missing_jdl_keyerror (trigger parquetDirExists : Bool)
    (expected outs : List (Nat × Nat)) (pickles running : List Nat)
    (h : trigger = true ∨ parquetDirExists = true) :
    checkSample trigger parquetDirExists true expected outs pickles none running
      = Except.error CheckErr.keyErrorJdl := by
  unfold checkSample
  rcases h with h | h <;> subst h <;> simp

theorem C10_missing_jdl_keyerror_witness :
    (false = true ∨ true = true)
    ∧ checkSample false true true [] [] [] none [] = Except.error CheckErr.keyErrorJdl :=
  ⟨Or.inr rfl, C10_missing_jdl_keyerror false true [] [] [] [] (Or.inr rfl)⟩

/-- C6: with a hash mismatch or uncommitted local changes, the submit path
with the override flag off exits before creating or submitting any
descriptor; with --allow-diff-local-repo set (and the branch existing) it
prints the warning and proceeds to create the shard descriptors. -/
theorem C6_revision_gate (branchExists : Bool) (uncommited_files : Nat)
    (remote_hash local_hash : String) (test : Bool) (tot L : Nat)
    (hdiff : remote_hash ≠ local_hash ∨ 0 < uncommited_files) :
    submitPath branchExists uncommited_files remote_hash local_hash false test tot L = none
    ∧ (branchExists = true →
        check_branch branchExists uncommited_files remote_hash local_hash true
            = BranchResult.proceeded true
        ∧ submitPath branchExists uncommited_files remote_hash local_hash true test tot L
            = some (submitShards test tot L)) := by
  constructor
  · unfold submitPath check_branch
    cases branchExists
    · rfl
    · by_cases hu : uncommited_files = 0
      · rcases hdiff with h | h
        · have hbne : (remote_hash != local_hash) = true := by simpa using h
          subst hu
          simp [hbne]
        · omega
      · have hbne : (uncommited_files != 0) = true := by simpa using hu
        simp [hbne]
  · intro hb
    subst hb
    have hw : (uncommited_files != 0 || remote_hash != local_hash) = true := by
      rcases hdiff with h | h
      · have hbne : (remote_hash != local_hash) = true := by simpa using h
        simp [hbne]
      · have hbne : (uncommited_files != 0) = true := by
          simpa using Nat.pos_iff_ne_zero.mp h
        simp [hbne]
    constructor
    · unfold check_branch
      simp [hw]
    · unfold submitPath check_branch
      simp [hw]

theorem C6_revision_gate_witness :
    (("abc" : String) ≠ "def" ∨ 0 < 0)
    ∧ (submitPath true 0 "abc" "def" false false 5 2 = none
      ∧ (true = true →
          check_branch true 0 "abc" "def" true = BranchResult.proceeded true
          ∧ submitPath true 0 "abc" "def" true false 5 2
              = some (submitShards false 5 2))) :=
  ⟨Or.inl (by decide), C6_revision_gate true 0 "abc" "def" false 5 2 (Or.inl (by decide))⟩

/-- C7: check_jobs.py cannot run to completion on any input state, because its
module-level import of replace_batch_size from boostedhh.submit_utils does not
resolve — submit_utils defines no such name — so Python raises ImportError and
the script aborts with a nonzero exit status before parsing its arguments,
contradicting the never-aborts exit behavior the spec states for the check
path. -/
theorem C7_check_jobs_import_fails : check_jobs_imports_ok = false := by decide

/-- C8: the file-opening retry loop in run makes at most 3 attempts; when
every attempt raises FileNotFoundError it performs exactly 3 attempts with a
fixed 60-second sleep between consecutive attempts and then propagates the
FileNotFoundError; an error of any other class is propagated immediately
after the attempt that raised it, with no retry. -/
theorem C8_retry_behavior (attempt : Nat → Except RunErr α)
    (hfnf : ∀ k, attempt k = Except.error RunErr.fileNotFound) :
    runWithRetry attempt
        = ⟨3, [60, 60], Except.error RunErr.fileNotFound⟩
    ∧ (∀ g : Nat → Except RunErr α, g 0 = Except.error RunErr.otherErr →
        runWithRetry g = ⟨1, [], Except.error RunErr.otherErr⟩)
    ∧ (∀ g : Nat → Except RunErr α, (runWithRetry g).attemptsMade ≤ 3) := by
  refine ⟨?_, ?_, ?_⟩
  · unfold runWithRetry
    rw [hfnf 0, hfnf 1, hfnf 2]
  · intro g hg
    unfold runWithRetry
    rw [hg]
  · intro g
    unfold runWithRetry
    cases h0 : g 0 with
    | ok a => exact (by decide : (1 : Nat) ≤ 3)
    | error e =>
      cases e with
      | otherErr => exact (by decide : (1 : Nat) ≤ 3)
      | fileNotFound =>
        cases h1 : g 1 with
        | ok a => exact (by decide : (2 : Nat) ≤ 3)
        | error e1 =>
          cases e1 with
          | otherErr => exact (by decide : (2 : Nat) ≤ 3)
          | fileNotFound =>
            cases h2 : g 2 with
            | ok a => exact (by decide : (3 : Nat) ≤ 3)
            | error e2 => cases e2 <;> exact (by decide : (3 : Nat) ≤ 3)

theorem C8_retry_behavior_witness :
    (∀ k : Nat, (fun _ : Nat => (Except.error RunErr.fileNotFound : Except RunErr Nat)) k
        = Except.error RunErr.fileNotFound)
    ∧ runWithRetry (fun _ : Nat => (Except.error RunErr.fileNotFound : Except RunErr Nat))
        = ⟨3, [60, 60], Except.error RunErr.fileNotFound⟩ :=
  ⟨fun _ => rfl,
    (C8_retry_behavior (fun _ : Nat => (Except.error RunErr.fileNotFound : Except RunErr Nat))
      (fun _ => rfl)).1⟩

theorem substituteAll_error_of_missing :
    ∀ (templ : List TemplTok) (m : List (String × String)),
      (∃ k, TemplTok.hole k ∈ templ ∧ m.lookup k = none) →
      ∃ k, substituteAll templ m = Except.error k
        ∧ TemplTok.hole k ∈ templ ∧ m.lookup k = none := by
  intro templ
  induction templ with
  | nil =>
    intro m hex
    obtain ⟨k, hk, _⟩ := hex
    cases hk
  | cons t ts ih =>
    intro m hex
    obtain ⟨k, hk, hlk⟩ := hex
    cases t with
    | lit s =>
      have hk2 : TemplTok.hole k ∈ ts := by
        rcases List.mem_cons.mp hk with h | h
        · cases h
        · exact h
      obtain ⟨k2, he, hm, hl⟩ := ih m ⟨k, hk2, hlk⟩
      refine ⟨k2, ?_, List.mem_cons_of_mem _ hm, hl⟩
      simp [substituteAll, substTok, he]
    | hole k0 =>
      cases hl0 : m.lookup k0 with
      | none =>
        refine ⟨k0, ?_, List.mem_cons_self _ _, hl0⟩
        simp [substituteAll, substTok, hl0]
      | some v =>
        have hk2 : TemplTok.hole k ∈ ts := by
          rcases List.mem_cons.mp hk with h | h
          · injection h with h1
            subst h1
            rw [hlk] at hl0
            cases hl0
          · exact h
        obtain ⟨k2, he, hm, hl⟩ := ih m ⟨k, hk2, hlk⟩
        refine ⟨k2, ?_, List.mem_cons_of_mem _ hm, hl⟩
        simp [substituteAll, substTok, hl0, he]

/-- C9: when any hole of the template has no entry in templ_args, rendering
raises immediately: write_template surfaces a KeyError naming a genuinely
missing key, and the only thing on disk is the empty truncated file — no
artifact containing an unsubstituted placeholder is ever written. -/
theorem C9_template_missing_key (templ : List TemplTok)
    (templ_args : List (String × String))
    (h : ∃ k, TemplTok.hole k ∈ templ ∧ templ_args.lookup k = none) :
    ∃ k, write_template templ templ_args = ⟨some "", some k⟩
      ∧ TemplTok.hole k ∈ templ ∧ templ_args.lookup k = none := by
  obtain ⟨k, he, hm, hl⟩ := substituteAll_error_of_missing templ templ_args h
  refine ⟨k, ?_, hm, hl⟩
  unfold write_template
  rw [he]

theorem C9_template_missing_key_witness :
    (∃ k, TemplTok.hole k ∈ [TemplTok.lit "site = ", TemplTok.hole "proxy"]
      ∧ ([("dir", "condor")] : List (String × String)).lookup k = none)
    ∧ ∃ k, write_template [TemplTok.lit "site = ", TemplTok.hole "proxy"]
          [("dir", "condor")] = ⟨some "", some k⟩
      ∧ TemplTok.hole k ∈ [TemplTok.lit "site = ", TemplTok.hole "proxy"]
      ∧ ([("dir", "condor")] : List (String × String)).lookup k = none :=
  ⟨⟨"proxy", by decide, by decide⟩,
    C9_template_missing_key _ _ ⟨"proxy", by decide, by decide⟩⟩
